import Mathlib

/-
Verification development for the adaptive spaced-repetition scheduler
(FSRS engine) of the vocabulary-game repository.  The definitions below are a
shallow embedding of src/js/fsrs-engine.js: JavaScript numbers are modelled as
real numbers, integer counters as naturals, and the mutable word-state record
as a Lean structure threaded through explicit state-passing functions, one per
source function.  Randomness in session selection is modelled as explicit
input streams (one Bool stream for the exploration coin flips, one real stream
for the weighted draws).
-/

noncomputable section

/-- Lifecycle states of a word, mirroring the string enum NEW / LEARNING /
REVIEW (`WordState` constant object) of the source. -/
inductive WState where
| new
| learning
| review
deriving DecidableEq, Repr

/- Response quality grades, mirroring the `ResponseQuality` constant object
of the source (ordinal numbers 0..3). -/
namespace ResponseQuality

def FAIL : ℕ := 0

def HARD : ℕ := 1

def GOOD : ℕ := 2

def EASY : ℕ := 3

end ResponseQuality

/-- Per-word learning state, mirroring the object literal returned by
`FSRSEngine.createNewWordState`. -/
structure WordState where
  wordId : String
  state : WState
  stability : ℝ
  difficulty : ℝ
  retrievability : ℝ
  repsTotal : ℕ
  repsCorrect : ℕ
  streakCorrect : ℕ
  lapseCount : ℕ
  lastResponseQuality : ℕ
  avgResponseTime : ℝ
  lastResponseTime : ℝ
  hintUsedCount : ℕ
  createdTime : ℝ
  lastReviewTime : ℝ
  nextDueTime : ℝ
  interval : ℝ
  uncertainty : ℝ
  priority : ℝ
  lastUpdated : ℝ

/-- Weight `w[0]` of the FSRS v4 weight vector `fsrsParams.w`. -/
def w0 : ℝ := 0.4

/-- Weight `w[1]` of the FSRS v4 weight vector `fsrsParams.w`. -/
def w1 : ℝ := 0.6

/-- Weight `w[6]` of the FSRS v4 weight vector `fsrsParams.w`. -/
def w6 : ℝ := 0.86

/-- Weight `w[8]` of the FSRS v4 weight vector `fsrsParams.w`. -/
def w8 : ℝ := 1.49

/-- Weight `w[9]` of the FSRS v4 weight vector `fsrsParams.w`. -/
def w9 : ℝ := 0.14

/-- Weight `w[10]` of the FSRS v4 weight vector `fsrsParams.w`. -/
def w10 : ℝ := 0.94

/-- `fsrsParams.retentionRate`. -/
def retentionRate : ℝ := 0.85

/-- `fsrsParams.maxInterval` (days). -/
def maxInterval : ℝ := 36500

/-- `fsrsParams.learningSteps` (minutes). -/
def learningSteps : List ℝ := [1, 10]

/-- `fsrsParams.easyInterval`. -/
def easyInterval : ℝ := 4

/-- `this.explorationRate`. -/
def explorationRate : ℝ := 0.1

/-- `this.uncertaintyWeight`. -/
def uncertaintyWeight : ℝ := 0.2

/-- `FSRSEngine.createNewWordState(wordId)`; `now` stands for `Date.now()`. -/
def createNewWordState (wordId : String) (now : ℝ) : WordState where
  wordId := wordId
  state := WState.new
  stability := 0
  difficulty := 0.3
  retrievability := 1
  repsTotal := 0
  repsCorrect := 0
  streakCorrect := 0
  lapseCount := 0
  lastResponseQuality := ResponseQuality.GOOD
  avgResponseTime := 0
  lastResponseTime := 0
  hintUsedCount := 0
  createdTime := now
  lastReviewTime := 0
  nextDueTime := now
  interval := 0
  uncertainty := 1
  priority := 0
  lastUpdated := now

/-- `FSRSEngine.determineResponseQuality(isCorrect, responseTimeMs, usedHint,
wordState)`. -/
def determineResponseQuality (isCorrect : Bool) (responseTimeMs : ℝ)
    (usedHint : Bool) (wordState : WordState) : ℕ :=
  if isCorrect = false then ResponseQuality.FAIL
  else
    let quality := ResponseQuality.GOOD
    let quality :=
      if wordState.avgResponseTime > 0 then
        let timeRatio := responseTimeMs / wordState.avgResponseTime
        if timeRatio < 0.5 then ResponseQuality.EASY
        else if timeRatio > 2.0 then ResponseQuality.HARD
        else quality
      else quality
    if usedHint then max ResponseQuality.FAIL (quality - 1) else quality

/-- `FSRSEngine.updateDifficulty(wordState, responseQuality)`: adjust, clamp
into `[1, 10]`, then renormalize via `(d - 1) / 9`. -/
def updateDifficulty (wordState : WordState) (responseQuality : ℕ) : WordState :=
  let difficultyAdjustment := w6 * ((responseQuality : ℝ) - 3)
  let clamped := max 1 (min 10 (wordState.difficulty + difficultyAdjustment))
  { wordState with difficulty := (clamped - 1) / 9 }

/-- `FSRSEngine.handleNewWord(wordState, responseQuality)`. -/
def handleNewWord (wordState : WordState) (responseQuality : ℕ) : WordState :=
  if responseQuality = ResponseQuality.FAIL then
    { wordState with stability := w0, state := WState.new }
  else
    { wordState with stability := w0 + w1 * ((responseQuality : ℝ) - 1),
                     state := WState.learning }

/-- `FSRSEngine.calculateStabilityMultiplier(responseQuality, difficulty,
stability)`. -/
def calculateStabilityMultiplier (responseQuality : ℕ) (difficulty : ℝ)
    (stability : ℝ) : ℝ :=
  let factor1 := Real.exp w8 * (11 - difficulty) * stability ^ (-w9) *
    (Real.exp (w10 * (1 - (responseQuality : ℝ))) - 1)
  max 0.1 (1 + factor1)

/-- `FSRSEngine.handleKnownWord(wordState, responseQuality)`. -/
def handleKnownWord (wordState : WordState) (responseQuality : ℕ) : WordState :=
  let stabilityMultiplier :=
    calculateStabilityMultiplier responseQuality wordState.difficulty wordState.stability
  let s1 := wordState.stability * stabilityMultiplier
  let s2 := max 0.1 s1
  let st :=
    if responseQuality = ResponseQuality.FAIL then WState.learning
    else if s2 > 1 then WState.review
    else wordState.state
  { wordState with stability := s2, state := st }

/-- `FSRSEngine.calculateRetrievability(wordState, currentTime)`. -/
def calculateRetrievability (wordState : WordState) (currentTime : ℝ) : ℝ :=
  if wordState.lastReviewTime = 0 ∨ wordState.stability = 0 then 1
  else
    let daysSinceReview := (currentTime - wordState.lastReviewTime) / (24 * 60 * 60 * 1000)
    Real.exp (-daysSinceReview / wordState.stability)

/-- `FSRSEngine.scheduleNextReview(wordState, responseQuality, currentTime)`. -/
def scheduleNextReview (wordState : WordState) (responseQuality : ℕ)
    (currentTime : ℝ) : WordState :=
  let interval0 :=
    if wordState.state = WState.new ∨ wordState.state = WState.learning then
      let stepIndex := min wordState.repsCorrect (learningSteps.length - 1)
      learningSteps.getD stepIndex 0 * 60 * 1000
    else
      let base := wordState.stability * Real.log retentionRate / Real.log 0.9 *
        24 * 60 * 60 * 1000
      if responseQuality = ResponseQuality.EASY then base * easyInterval
      else if responseQuality = ResponseQuality.HARD then base * 0.5
      else if responseQuality = ResponseQuality.FAIL then
        learningSteps.getD 0 0 * 60 * 1000
      else base
  let interval1 := min interval0 (maxInterval * 24 * 60 * 60 * 1000)
  { wordState with interval := interval1, nextDueTime := currentTime + interval1 }

/-- `FSRSEngine.applyFSRSUpdate(wordState, responseQuality, currentTime)`. -/
def applyFSRSUpdate (wordState : WordState) (responseQuality : ℕ)
    (currentTime : ℝ) : WordState :=
  let ws1 := updateDifficulty wordState responseQuality
  let ws2 :=
    if ws1.state = WState.new then handleNewWord ws1 responseQuality
    else handleKnownWord ws1 responseQuality
  let ws3 := { ws2 with retrievability := calculateRetrievability ws2 currentTime }
  scheduleNextReview ws3 responseQuality currentTime

/-- `FSRSEngine.updateWordPriority(wordState, currentTime)`. -/
def updateWordPriority (wordState : WordState) (currentTime : ℝ) : WordState :=
  let p1 : ℝ :=
    if currentTime ≥ wordState.nextDueTime then
      let overdueDays := (currentTime - wordState.nextDueTime) / (24 * 60 * 60 * 1000)
      10 + min (overdueDays * 2) 20
    else 0
  let p2 := p1 + (1 - wordState.retrievability) * 5
  let p3 := p2 + wordState.difficulty * 2
  let p4 := p3 + (if wordState.lapseCount > 0 then
    min ((wordState.lapseCount : ℝ) * 1.5) 5 else 0)
  let p5 := p4 + (if wordState.state = WState.new then 3 else 0)
  let p6 := p5 + wordState.uncertainty * uncertaintyWeight
  { wordState with priority := p6 }

/-- `FSRSEngine.updateUncertainty(wordState)`. -/
def updateUncertainty (wordState : WordState) : WordState :=
  let baseUncertainty := Real.exp (-(wordState.repsTotal : ℝ) * 0.1)
  let accuracy : ℝ :=
    if wordState.repsTotal > 0 then (wordState.repsCorrect : ℝ) / wordState.repsTotal
    else 0
  let consistencyFactor := |accuracy - 0.5| * 2
  { wordState with
    uncertainty := max 0.1 (baseUncertainty + (1 - consistencyFactor) * 0.3) }

/-- `FSRSEngine.updateWordState(wordId, isCorrect, responseTimeMs, usedHint)`
as a pure state transformer: the looked-up word state and `Date.now()` are
passed in, and the returned value is the state that the source saves.  The
audit-log side effects are modelled separately (`logStateUpdate`). -/
def updateWordState (wordState : WordState) (isCorrect : Bool)
    (responseTimeMs : ℝ) (usedHint : Bool) (currentTime : ℝ) : WordState :=
  let responseQuality := determineResponseQuality isCorrect responseTimeMs usedHint wordState
  let ws1 := { wordState with
    repsTotal := wordState.repsTotal + 1,
    lastResponseTime := responseTimeMs,
    lastReviewTime := currentTime,
    lastUpdated := currentTime }
  let ws2 := { ws1 with avgResponseTime :=
    if ws1.avgResponseTime = 0 then responseTimeMs
    else (1 - 0.1) * ws1.avgResponseTime + 0.1 * responseTimeMs }
  let ws3 := if usedHint then { ws2 with hintUsedCount := ws2.hintUsedCount + 1 } else ws2
  let ws4 :=
    if isCorrect then
      { ws3 with repsCorrect := ws3.repsCorrect + 1,
                 streakCorrect := ws3.streakCorrect + 1 }
    else
      { ws3 with streakCorrect := 0, lapseCount := ws3.lapseCount + 1 }
  let ws5 := applyFSRSUpdate ws4 responseQuality currentTime
  let ws6 := updateWordPriority ws5 currentTime
  updateUncertainty ws6

/-- One entry of the `vocabularyData` array passed to
`selectWordsForSession`. -/
structure VocabItem where
  concept : String
  definition : String

/-- One element of the `wordPriorities` working array of
`selectWordsForSession` (vocabulary item spread together with its word state
and priority). -/
structure PriorityEntry where
  concept : String
  definition : String
  wordState : WordState
  priority : ℝ

/-- One element of the `selectedWords` result array of
`selectWordsForSession`. -/
structure SelectedWord where
  concept : String
  definition : String
  priority : ℝ
  state : WState
  difficulty : ℝ

/-- `FSRSEngine.getWordState(wordId)` against a given persisted store: return
the stored state, lazily creating the default for a missing id. -/
def getWordState (store : String → Option WordState) (now : ℝ)
    (wordId : String) : WordState :=
  (store wordId).getD (createNewWordState wordId now)

/-- The push made in the selection loop body of `selectWordsForSession`. -/
def toSelected (e : PriorityEntry) : SelectedWord where
  concept := e.concept
  definition := e.definition
  priority := e.priority
  state := e.wordState.state
  difficulty := e.wordState.difficulty

/-- The inner weighted-draw loop of `selectWordsForSession`: walk the weights
subtracting each from `randomValue`, returning the first index where the
running value drops to `≤ 0`; `selectedIndex` stays `0` when the loop runs
out. -/
def drawIndexAux : List ℝ → ℝ → ℕ → ℕ
  | [], _, _ => 0
  | wt :: rest, randomValue, j =>
    if randomValue - wt ≤ 0 then j else drawIndexAux rest (randomValue - wt) (j + 1)

/-- Entry point of the weighted-draw loop (index starts at 0). -/
def drawIndex (uncertaintyWeights : List ℝ) (randomValue : ℝ) : ℕ :=
  drawIndexAux uncertaintyWeights randomValue 0

/-- The `if (selectedWord) selectedWords.push(...)` guard at the end of each
selection-loop iteration: a JS read past the end of the array gives
`undefined` (here `none`), which is falsy and pushes nothing; any actual entry
is an object, hence truthy, and is pushed. -/
def pushIfSome (selectedWord : Option PriorityEntry)
    (rest : List SelectedWord) : List SelectedWord :=
  match selectedWord with
  | some e => toSelected e :: rest
  | none => rest

/-- The `for (let i = 0; i < targetCount; i++)` selection loop of
`selectWordsForSession`.  `explore i` models `Math.random() <
this.explorationRate` at iteration `i`, and `rand i` models the `Math.random()`
drawn for the uncertainty-weighted selection.  The splice of the drawn element
is index-based: in the source, `indexOf(selectedWord)` on pairwise-distinct
object references resolves to position `i + selectedIndex` (and in the
weighted-draw branch the drawn index is always in range, so the pushed
element is `remainingWords.get? selectedIndex` there). -/
def selectLoop (explore : ℕ → Bool) (rand : ℕ → ℝ) :
    ℕ → ℕ → List PriorityEntry → List SelectedWord
  | 0, _, _ => []
  | fuel + 1, i, wordPriorities =>
    if explore i = true ∧ i < wordPriorities.length then
      let remainingWords := wordPriorities.drop i
      let uncertaintyWeights := remainingWords.map (fun e => e.wordState.uncertainty)
      let totalWeight := uncertaintyWeights.sum
      if totalWeight > 0 then
        let selectedIndex := drawIndex uncertaintyWeights (rand i * totalWeight)
        pushIfSome (remainingWords.get? selectedIndex)
          (selectLoop explore rand fuel (i + 1) (wordPriorities.eraseIdx (i + selectedIndex)))
      else
        pushIfSome (wordPriorities.get? i)
          (selectLoop explore rand fuel (i + 1) wordPriorities)
    else
      pushIfSome (wordPriorities.get? i)
        (selectLoop explore rand fuel (i + 1) wordPriorities)

/-- The `vocabularyData.forEach` of `selectWordsForSession`: look up (lazily
creating) each word state, refresh its priority, and collect the spread
records. -/
def buildWordPriorities (store : String → Option WordState) (currentTime : ℝ)
    (vocabularyData : List VocabItem) : List PriorityEntry :=
  vocabularyData.map (fun vocabItem =>
    let wordState := updateWordPriority (getWordState store currentTime vocabItem.concept) currentTime
    ⟨vocabItem.concept, vocabItem.definition, wordState, wordState.priority⟩)

/-- The `wordPriorities.sort((a, b) => b.priority - a.priority)` step:
a stable sort by descending priority. -/
def sortByPriority (l : List PriorityEntry) : List PriorityEntry :=
  l.insertionSort (fun a b => b.priority ≤ a.priority)

/-- `FSRSEngine.selectWordsForSession(vocabularyData, sessionLength)` with the
persisted store, `Date.now()` and the two random streams passed explicitly. -/
def selectWordsForSession (store : String → Option WordState)
    (explore : ℕ → Bool) (rand : ℕ → ℝ) (vocabularyData : List VocabItem)
    (sessionLength : ℤ) (currentTime : ℝ) : List SelectedWord :=
  let wordPriorities := sortByPriority (buildWordPriorities store currentTime vocabularyData)
  let targetCount := min sessionLength (wordPriorities.length : ℤ)
  selectLoop explore rand targetCount.toNat 0 wordPriorities

/-- Result record of `FSRSEngine.getAnalytics()`. -/
structure Analytics where
  totalWords : ℕ
  newWords : ℕ
  learningWords : ℕ
  reviewWords : ℕ
  masteredWords : ℕ
  averageAccuracy : ℝ
  totalReviews : ℕ

/-- Mutable accumulators of the `wordIds.forEach` loop in `getAnalytics`. -/
structure AnalyticsCounts where
  newWords : ℕ
  learningWords : ℕ
  reviewWords : ℕ
  masteredWords : ℕ
  totalReviews : ℕ
  totalCorrect : ℕ

/-- Body of the `wordIds.forEach` loop in `getAnalytics`: accumulate review
totals, then switch on the lifecycle state, counting a REVIEW word as mastered
exactly when `retrievability > 0.9 && streakCorrect >= 3`. -/
def analyticsFold (acc : AnalyticsCounts) (state : WordState) : AnalyticsCounts :=
  let acc1 := { acc with
    totalReviews := acc.totalReviews + state.repsTotal,
    totalCorrect := acc.totalCorrect + state.repsCorrect }
  match state.state with
  | WState.new => { acc1 with newWords := acc1.newWords + 1 }
  | WState.learning => { acc1 with learningWords := acc1.learningWords + 1 }
  | WState.review =>
    if state.retrievability > 0.9 ∧ state.streakCorrect ≥ 3 then
      { acc1 with masteredWords := acc1.masteredWords + 1 }
    else
      { acc1 with reviewWords := acc1.reviewWords + 1 }

/-- `FSRSEngine.getAnalytics()` over the list of persisted word states. -/
def getAnalytics (wordStatesList : List WordState) : Analytics :=
  if wordStatesList.isEmpty then
    ⟨0, 0, 0, 0, 0, 0, 0⟩
  else
    let c := wordStatesList.foldl analyticsFold ⟨0, 0, 0, 0, 0, 0⟩
    { totalWords := wordStatesList.length
      newWords := c.newWords
      learningWords := c.learningWords
      reviewWords := c.reviewWords
      masteredWords := c.masteredWords
      averageAccuracy :=
        if c.totalReviews > 0 then (c.totalCorrect : ℝ) / c.totalReviews else 0
      totalReviews := c.totalReviews }

/-- The `stateBefore` snapshot captured by `FSRSDataLogger.logReview`. -/
structure StateSnapshot where
  state : WState
  stability : ℝ
  difficulty : ℝ
  retrievability : ℝ
  repsTotal : ℕ
  repsCorrect : ℕ
  streakCorrect : ℕ

/-- The `stateAfter` snapshot attached by `FSRSDataLogger.logStateUpdate`. -/
structure AfterSnapshot where
  state : WState
  stability : ℝ
  difficulty : ℝ
  retrievability : ℝ
  repsTotal : ℕ
  repsCorrect : ℕ
  streakCorrect : ℕ
  nextDueTime : ℝ
  priority : ℝ

/-- The `changes` deltas attached by `FSRSDataLogger.logStateUpdate`. -/
structure LogChanges where
  stabilityChange : ℝ
  difficultyChange : ℝ
  retrievabilityChange : ℝ

/-- One entry of the `FSRSDataLogger.logs` array. -/
structure LogEntry where
  timestamp : ℝ
  wordId : String
  responseQuality : ℕ
  responseTime : ℝ
  usedHint : Bool
  stateBefore : StateSnapshot
  stateAfter : Option AfterSnapshot
  changes : Option LogChanges

/-- `FSRSDataLogger.logStateUpdate(wordState, responseQuality)`: if the tail
entry of the log exists and carries the same word id, attach the after-state
snapshot and the deltas to it; otherwise leave the log untouched.  The
`responseQuality` parameter is unused in the source body and kept here for
fidelity. -/
def logStateUpdate (logs : List LogEntry) (wordState : WordState)
    (responseQuality : ℕ) : List LogEntry :=
  match logs.getLast? with
  | none => logs
  | some lastLog =>
    if lastLog.wordId = wordState.wordId then
      let afterSnap : AfterSnapshot :=
        ⟨wordState.state, wordState.stability, wordState.difficulty,
         wordState.retrievability, wordState.repsTotal, wordState.repsCorrect,
         wordState.streakCorrect, wordState.nextDueTime, wordState.priority⟩
      let changes : LogChanges :=
        ⟨afterSnap.stability - lastLog.stateBefore.stability,
         afterSnap.difficulty - lastLog.stateBefore.difficulty,
         afterSnap.retrievability - lastLog.stateBefore.retrievability⟩
      logs.dropLast ++ [{ lastLog with stateAfter := some afterSnap, changes := some changes }]
    else logs

/- Concrete inputs used by counterexamples and witnesses. -/

/-- A word state with a nonzero response-time average, as left behind by an
earlier response; used to exhibit a correct-but-hinted FAIL classification. -/
def slowHintedState : WordState :=
  { createNewWordState "hinted" 0 with avgResponseTime := 1000 }

/-- A word state that has been reviewed once, correctly; its next review makes
`repsTotal = 2, repsCorrect = 1`. -/
def onceCorrectState : WordState :=
  { createNewWordState "once" 0 with repsTotal := 1, repsCorrect := 1, streakCorrect := 1 }

/-- A LEARNING word with perfect retrievability and a streak of 3: mastered by
the spec's side condition, but not in lifecycle state REVIEW. -/
def learningMaster : WordState :=
  { createNewWordState "master" 0 with state := WState.learning, streakCorrect := 3 }

/-- A stored LEARNING word that is not yet due at time 0; its uncertainty is
the default 1. -/
def uniformState (wordId : String) : WordState :=
  { createNewWordState wordId 0 with state := WState.learning, nextDueTime := 1 }

/-- A store holding `uniformState` for every id. -/
def uniformStore : String → Option WordState := fun wordId => some (uniformState wordId)

/-- A two-item vocabulary. -/
def pairVocab : List VocabItem := [⟨"alpha", "A"⟩, ⟨"beta", "B"⟩]

/-- A pre-update snapshot used in a log entry. -/
def beforeSnap : StateSnapshot := ⟨WState.new, 0, 0.3, 1, 0, 0, 0⟩

/-- A log entry for the word "alpha" still awaiting its after-state. -/
def alphaEntry : LogEntry := ⟨0, "alpha", 2, 1000, false, beforeSnap, none, none⟩

/-- A word state whose id differs from the tail log entry's id. -/
def betaWord : WordState := createNewWordState "beta" 0

/- Projection lemmas: each step of the update pipeline touches only the fields
the source function assigns, so every other field projects through. -/

@[simp] theorem updateDifficulty_state (ws : WordState) (q : ℕ) :
    (updateDifficulty ws q).state = ws.state := rfl

@[simp] theorem updateDifficulty_repsTotal (ws : WordState) (q : ℕ) :
    (updateDifficulty ws q).repsTotal = ws.repsTotal := rfl

@[simp] theorem updateDifficulty_repsCorrect (ws : WordState) (q : ℕ) :
    (updateDifficulty ws q).repsCorrect = ws.repsCorrect := rfl

@[simp] theorem updateDifficulty_streakCorrect (ws : WordState) (q : ℕ) :
    (updateDifficulty ws q).streakCorrect = ws.streakCorrect := rfl

@[simp] theorem updateDifficulty_lapseCount (ws : WordState) (q : ℕ) :
    (updateDifficulty ws q).lapseCount = ws.lapseCount := rfl

@[simp] theorem updateDifficulty_lastReviewTime (ws : WordState) (q : ℕ) :
    (updateDifficulty ws q).lastReviewTime = ws.lastReviewTime := rfl

@[simp] theorem updateDifficulty_uncertainty (ws : WordState) (q : ℕ) :
    (updateDifficulty ws q).uncertainty = ws.uncertainty := rfl

@[simp] theorem updateDifficulty_difficulty (ws : WordState) (q : ℕ) :
    (updateDifficulty ws q).difficulty =
      (max 1 (min 10 (ws.difficulty + w6 * ((q : ℝ) - 3))) - 1) / 9 := rfl

@[simp] theorem handleNewWord_difficulty (ws : WordState) (q : ℕ) :
    (handleNewWord ws q).difficulty = ws.difficulty := by
  unfold handleNewWord; split <;> rfl

@[simp] theorem handleNewWord_repsTotal (ws : WordState) (q : ℕ) :
    (handleNewWord ws q).repsTotal = ws.repsTotal := by
  unfold handleNewWord; split <;> rfl

@[simp] theorem handleNewWord_repsCorrect (ws : WordState) (q : ℕ) :
    (handleNewWord ws q).repsCorrect = ws.repsCorrect := by
  unfold handleNewWord; split <;> rfl

@[simp] theorem handleNewWord_streakCorrect (ws : WordState) (q : ℕ) :
    (handleNewWord ws q).streakCorrect = ws.streakCorrect := by
  unfold handleNewWord; split <;> rfl

@[simp] theorem handleNewWord_lapseCount (ws : WordState) (q : ℕ) :
    (handleNewWord ws q).lapseCount = ws.lapseCount := by
  unfold handleNewWord; split <;> rfl

@[simp] theorem handleNewWord_lastReviewTime (ws : WordState) (q : ℕ) :
    (handleNewWord ws q).lastReviewTime = ws.lastReviewTime := by
  unfold handleNewWord; split <;> rfl

@[simp] theorem handleNewWord_uncertainty (ws : WordState) (q : ℕ) :
    (handleNewWord ws q).uncertainty = ws.uncertainty := by
  unfold handleNewWord; split <;> rfl

@[simp] theorem handleKnownWord_difficulty (ws : WordState) (q : ℕ) :
    (handleKnownWord ws q).difficulty = ws.difficulty := rfl

@[simp] theorem handleKnownWord_repsTotal (ws : WordState) (q : ℕ) :
    (handleKnownWord ws q).repsTotal = ws.repsTotal := rfl

@[simp] theorem handleKnownWord_repsCorrect (ws : WordState) (q : ℕ) :
    (handleKnownWord ws q).repsCorrect = ws.repsCorrect := rfl

@[simp] theorem handleKnownWord_streakCorrect (ws : WordState) (q : ℕ) :
    (handleKnownWord ws q).streakCorrect = ws.streakCorrect := rfl

@[simp] theorem handleKnownWord_lapseCount (ws : WordState) (q : ℕ) :
    (handleKnownWord ws q).lapseCount = ws.lapseCount := rfl

@[simp] theorem handleKnownWord_lastReviewTime (ws : WordState) (q : ℕ) :
    (handleKnownWord ws q).lastReviewTime = ws.lastReviewTime := rfl

@[simp] theorem handleKnownWord_uncertainty (ws : WordState) (q : ℕ) :
    (handleKnownWord ws q).uncertainty = ws.uncertainty := rfl

@[simp] theorem scheduleNextReview_state (ws : WordState) (q : ℕ) (t : ℝ) :
    (scheduleNextReview ws q t).state = ws.state := rfl

@[simp] theorem scheduleNextReview_difficulty (ws : WordState) (q : ℕ) (t : ℝ) :
    (scheduleNextReview ws q t).difficulty = ws.difficulty := rfl

@[simp] theorem scheduleNextReview_repsTotal (ws : WordState) (q : ℕ) (t : ℝ) :
    (scheduleNextReview ws q t).repsTotal = ws.repsTotal := rfl

@[simp] theorem scheduleNextReview_repsCorrect (ws : WordState) (q : ℕ) (t : ℝ) :
    (scheduleNextReview ws q t).repsCorrect = ws.repsCorrect := rfl

@[simp] theorem scheduleNextReview_streakCorrect (ws : WordState) (q : ℕ) (t : ℝ) :
    (scheduleNextReview ws q t).streakCorrect = ws.streakCorrect := rfl

@[simp] theorem scheduleNextReview_lapseCount (ws : WordState) (q : ℕ) (t : ℝ) :
    (scheduleNextReview ws q t).lapseCount = ws.lapseCount := rfl

@[simp] theorem scheduleNextReview_retrievability (ws : WordState) (q : ℕ) (t : ℝ) :
    (scheduleNextReview ws q t).retrievability = ws.retrievability := rfl

@[simp] theorem scheduleNextReview_uncertainty (ws : WordState) (q : ℕ) (t : ℝ) :
    (scheduleNextReview ws q t).uncertainty = ws.uncertainty := rfl

@[simp] theorem updateWordPriority_state (ws : WordState) (t : ℝ) :
    (updateWordPriority ws t).state = ws.state := rfl

@[simp] theorem updateWordPriority_difficulty (ws : WordState) (t : ℝ) :
    (updateWordPriority ws t).difficulty = ws.difficulty := rfl

@[simp] theorem updateWordPriority_repsTotal (ws : WordState) (t : ℝ) :
    (updateWordPriority ws t).repsTotal = ws.repsTotal := rfl

@[simp] theorem updateWordPriority_repsCorrect (ws : WordState) (t : ℝ) :
    (updateWordPriority ws t).repsCorrect = ws.repsCorrect := rfl

@[simp] theorem updateWordPriority_streakCorrect (ws : WordState) (t : ℝ) :
    (updateWordPriority ws t).streakCorrect = ws.streakCorrect := rfl

@[simp] theorem updateWordPriority_lapseCount (ws : WordState) (t : ℝ) :
    (updateWordPriority ws t).lapseCount = ws.lapseCount := rfl

@[simp] theorem updateWordPriority_retrievability (ws : WordState) (t : ℝ) :
    (updateWordPriority ws t).retrievability = ws.retrievability := rfl

@[simp] theorem updateWordPriority_interval (ws : WordState) (t : ℝ) :
    (updateWordPriority ws t).interval = ws.interval := rfl

@[simp] theorem updateWordPriority_uncertainty (ws : WordState) (t : ℝ) :
    (updateWordPriority ws t).uncertainty = ws.uncertainty := rfl

@[simp] theorem updateUncertainty_state (ws : WordState) :
    (updateUncertainty ws).state = ws.state := rfl

@[simp] theorem updateUncertainty_difficulty (ws : WordState) :
    (updateUncertainty ws).difficulty = ws.difficulty := rfl

@[simp] theorem updateUncertainty_repsTotal (ws : WordState) :
    (updateUncertainty ws).repsTotal = ws.repsTotal := rfl

@[simp] theorem updateUncertainty_repsCorrect (ws : WordState) :
    (updateUncertainty ws).repsCorrect = ws.repsCorrect := rfl

@[simp] theorem updateUncertainty_streakCorrect (ws : WordState) :
    (updateUncertainty ws).streakCorrect = ws.streakCorrect := rfl

@[simp] theorem updateUncertainty_lapseCount (ws : WordState) :
    (updateUncertainty ws).lapseCount = ws.lapseCount := rfl

@[simp] theorem updateUncertainty_retrievability (ws : WordState) :
    (updateUncertainty ws).retrievability = ws.retrievability := rfl

@[simp] theorem updateUncertainty_interval (ws : WordState) :
    (updateUncertainty ws).interval = ws.interval := rfl

theorem updateUncertainty_uncertainty (ws : WordState) :
    (updateUncertainty ws).uncertainty =
      max 0.1 (Real.exp (-(ws.repsTotal : ℝ) * 0.1) +
        (1 - |(if ws.repsTotal > 0 then (ws.repsCorrect : ℝ) / ws.repsTotal else 0) - 0.5| * 2) * 0.3) := rfl

/-- Right after a review the elapsed time is zero, so the recomputed
retrievability is exactly 1 on every branch of `calculateRetrievability`. -/
theorem calculateRetrievability_now (ws : WordState) (t : ℝ)
    (hl : ws.lastReviewTime = t) : calculateRetrievability ws t = 1 := by
  unfold calculateRetrievability
  split
  · rfl
  · simp [hl, sub_self]

/-- The classified quality grade is always one of 0..3. -/
theorem determineResponseQuality_le_three (c : Bool) (rt : ℝ) (h : Bool)
    (ws : WordState) : determineResponseQuality c rt h ws ≤ 3 := by
  unfold determineResponseQuality
  split_ifs <;>
    simp [ResponseQuality.FAIL, ResponseQuality.HARD, ResponseQuality.GOOD,
      ResponseQuality.EASY] <;>
    split_ifs <;> norm_num

/-- Decomposition of a full `updateWordState` call: counters and the EMA are
updated first, then difficulty, stability, retrievability, scheduling,
priority and uncertainty.  `wsMid` is the state handed to
`scheduleNextReview`. -/
theorem updateWordState_decomp (ws : WordState) (c : Bool) (rt : ℝ)
    (h : Bool) (t : ℝ) :
    ∃ wsMid : WordState,
      updateWordState ws c rt h t =
        updateUncertainty (updateWordPriority
          (scheduleNextReview wsMid (determineResponseQuality c rt h ws) t) t) ∧
      wsMid.repsTotal = ws.repsTotal + 1 ∧
      wsMid.repsCorrect = (if c then ws.repsCorrect + 1 else ws.repsCorrect) ∧
      wsMid.streakCorrect = (if c then ws.streakCorrect + 1 else 0) ∧
      wsMid.lapseCount = (if c then ws.lapseCount else ws.lapseCount + 1) ∧
      wsMid.difficulty =
        (max 1 (min 10 (ws.difficulty +
          w6 * ((determineResponseQuality c rt h ws : ℝ) - 3))) - 1) / 9 ∧
      wsMid.retrievability = 1 := by
  cases c <;> cases h <;>
    refine ⟨_, rfl, ?_, ?_, ?_, ?_, ?_, ?_⟩ <;>
      simp [updateWordState, applyFSRSUpdate, apply_ite WordState.repsTotal,
        apply_ite WordState.repsCorrect, apply_ite WordState.streakCorrect,
        apply_ite WordState.lapseCount, apply_ite WordState.difficulty,
        apply_ite WordState.retrievability, apply_ite WordState.lastReviewTime,
        calculateRetrievability_now]

/-- The difficulty formula of the code maps any stored difficulty `≤ 1` to 0
whenever the quality grade is at most 3. -/
theorem difficulty_formula_zero (d : ℝ) (hd : d ≤ 1) (q : ℕ) (hq : q ≤ 3) :
    (max 1 (min 10 (d + w6 * ((q : ℝ) - 3))) - 1) / 9 = 0 := by
  have hq' : (q : ℝ) ≤ 3 := by exact_mod_cast hq
  have hw : (0 : ℝ) ≤ w6 := by norm_num [w6]
  have hadj : w6 * ((q : ℝ) - 3) ≤ 0 := by nlinarith
  have hx : d + w6 * ((q : ℝ) - 3) ≤ 1 := by linarith
  rw [min_eq_right (by linarith : d + w6 * ((q : ℝ) - 3) ≤ 10), max_eq_left hx]
  norm_num

/-- Claim C1 (code-bug evidence): at the default stored difficulty 0.3 and
quality grade EASY, the difficulty step of the code yields 0, while the
specified formula — clamp the adjusted normalized value into the unit
interval — yields 0.3. -/
theorem difficulty_step_diverges_from_spec :
    (updateDifficulty (createNewWordState "w" 0) ResponseQuality.EASY).difficulty = 0 ∧
    min 1 (max 0 ((createNewWordState "w" 0).difficulty +
      w6 * ((ResponseQuality.EASY : ℝ) - 3))) = 0.3 := by
  have hcast : ((ResponseQuality.EASY : ℕ) : ℝ) = 3 := by norm_num [ResponseQuality.EASY]
  have hd : (createNewWordState "w" 0).difficulty = 0.3 := rfl
  have hadj : (0.3 : ℝ) + w6 * (3 - 3) = 0.3 := by norm_num [w6]
  constructor
  · rw [updateDifficulty_difficulty, hcast, hd, hadj,
      min_eq_right (by norm_num : (0.3 : ℝ) ≤ 10),
      max_eq_left (by norm_num : (0.3 : ℝ) ≤ 1)]
    norm_num
  · rw [hd, hcast, hadj, max_eq_right (by norm_num : (0 : ℝ) ≤ 0.3),
      min_eq_right (by norm_num : (0.3 : ℝ) ≤ 1)]

/-- Claim C2: any update of a state whose stored difficulty is at most 1 (in
particular the default 0.3, and any state already produced by an update) sets
the stored difficulty to exactly 0, whatever the response. -/
theorem update_difficulty_always_zero (ws : WordState) (c : Bool) (rt : ℝ)
    (h : Bool) (t : ℝ) (hd : ws.difficulty ≤ 1) :
    (updateWordState ws c rt h t).difficulty = 0 := by
  obtain ⟨M, hEq, -, -, -, -, hdiff, -⟩ := updateWordState_decomp ws c rt h t
  rw [hEq]
  simp only [updateUncertainty_difficulty, updateWordPriority_difficulty,
    scheduleNextReview_difficulty]
  rw [hdiff]
  exact difficulty_formula_zero _ hd _ (determineResponseQuality_le_three c rt h ws)

/-- Witness for C2 at the default new-word state. -/
theorem update_difficulty_always_zero_witness :
    (createNewWordState "x" 0).difficulty ≤ 1 ∧
    (updateWordState (createNewWordState "x" 0) true 500 false 0).difficulty = 0 :=
  ⟨by norm_num [createNewWordState],
   update_difficulty_always_zero _ true 500 false 0 (by norm_num [createNewWordState])⟩

/-- Claim C7: an update always stores retrievability exactly 1 (the elapsed
time since review is zero at recomputation time), so the low-retrievability
priority term is 0 immediately after an update. -/
theorem update_retrievability_one (ws : WordState) (c : Bool) (rt : ℝ)
    (h : Bool) (t : ℝ) :
    (updateWordState ws c rt h t).retrievability = 1 ∧
    (1 - (updateWordState ws c rt h t).retrievability) * 5 = 0 := by
  obtain ⟨M, hEq, -, -, -, -, -, hretr⟩ := updateWordState_decomp ws c rt h t
  have h1 : (updateWordState ws c rt h t).retrievability = 1 := by
    rw [hEq]
    simp only [updateUncertainty_retrievability, updateWordPriority_retrievability,
      scheduleNextReview_retrievability]
    exact hretr
  exact ⟨h1, by rw [h1]; ring⟩

/-- Claim C4 (amended): the counter updates follow `isCorrect`, not the
classified grade: an incorrect response (always graded FAIL) resets
`streakCorrect` to 0 and increments `lapseCount`. -/
theorem incorrect_resets_streak (ws : WordState) (rt : ℝ) (h : Bool) (t : ℝ) :
    determineResponseQuality false rt h ws = ResponseQuality.FAIL ∧
    (updateWordState ws false rt h t).streakCorrect = 0 ∧
    (updateWordState ws false rt h t).lapseCount = ws.lapseCount + 1 := by
  obtain ⟨M, hEq, -, -, hstreak, hlapse, -, -⟩ := updateWordState_decomp ws false rt h t
  refine ⟨rfl, ?_, ?_⟩
  · rw [hEq]
    simp only [updateUncertainty_streakCorrect, updateWordPriority_streakCorrect,
      scheduleNextReview_streakCorrect]
    rw [hstreak]
    simp
  · rw [hEq]
    simp only [updateUncertainty_lapseCount, updateWordPriority_lapseCount,
      scheduleNextReview_lapseCount]
    rw [hlapse]
    simp

/-- Claim C4 counterexample: a correct response that is slow (ratio 3 over the
average) and uses a hint is classified FAIL, yet the update increments
`streakCorrect` and leaves `lapseCount` unchanged. -/
theorem hinted_fail_keeps_streak :
    determineResponseQuality true 3000 true slowHintedState = ResponseQuality.FAIL ∧
    ¬((updateWordState slowHintedState true 3000 true 9).streakCorrect = 0 ∧
      (updateWordState slowHintedState true 3000 true 9).lapseCount =
        slowHintedState.lapseCount + 1) := by
  obtain ⟨M, hEq, -, -, hstreak, hlapse, -, -⟩ :=
    updateWordState_decomp slowHintedState true 3000 true 9
  have hq : determineResponseQuality true 3000 true slowHintedState = ResponseQuality.FAIL := by
    have havg : slowHintedState.avgResponseTime = 1000 := rfl
    unfold determineResponseQuality
    rw [if_neg (by simp)]
    dsimp only
    rw [havg]
    norm_num [ResponseQuality.FAIL, ResponseQuality.HARD, ResponseQuality.GOOD,
      ResponseQuality.EASY]
  refine ⟨hq, ?_⟩
  intro ⟨hs, _⟩
  rw [hEq] at hs
  simp only [updateUncertainty_streakCorrect, updateWordPriority_streakCorrect,
    scheduleNextReview_streakCorrect] at hs
  rw [hstreak] at hs
  simp at hs

/-- Bounds on the recomputed uncertainty: the stored value always lies in the
interval from 0.1 to 1.3. -/
theorem updateUncertainty_bounds (ws : WordState) :
    0.1 ≤ (updateUncertainty ws).uncertainty ∧
    (updateUncertainty ws).uncertainty ≤ 1.3 := by
  rw [updateUncertainty_uncertainty]
  constructor
  · exact le_max_left _ _
  · apply max_le (by norm_num)
    have h1 : Real.exp (-(ws.repsTotal : ℝ) * 0.1) ≤ 1 := by
      rw [Real.exp_le_one_iff]
      have := Nat.cast_nonneg (α := ℝ) ws.repsTotal
      nlinarith
    have h2 :
        (1 - |(if ws.repsTotal > 0 then (ws.repsCorrect : ℝ) / ws.repsTotal else 0) - 0.5| * 2)
          * 0.3 ≤ 0.3 := by
      have h3 := abs_nonneg
        ((if ws.repsTotal > 0 then (ws.repsCorrect : ℝ) / ws.repsTotal else 0) - 0.5)
      nlinarith
    linarith

/-- Claim C3 (amended): after every update the stored uncertainty lies in
`[0.1, 1.3]` (the upper bound 1 of the claim does not hold). -/
theorem update_uncertainty_bounds (ws : WordState) (c : Bool) (rt : ℝ)
    (h : Bool) (t : ℝ) :
    0.1 ≤ (updateWordState ws c rt h t).uncertainty ∧
    (updateWordState ws c rt h t).uncertainty ≤ 1.3 := by
  obtain ⟨M, hEq, -, -, -, -, -, -⟩ := updateWordState_decomp ws c rt h t
  rw [hEq]
  exact updateUncertainty_bounds _

/-- Claim C3 counterexample: an incorrect second review of a once-correct word
leaves `repsTotal = 2, repsCorrect = 1`, so the recomputed uncertainty is
`exp(-0.2) + 0.3 > 1.1 > 1`, violating the claimed upper bound 1. -/
theorem update_uncertainty_exceeds_one :
    1 < (updateWordState onceCorrectState false 1000 false 7).uncertainty := by
  obtain ⟨M, hEq, hrt, hrc, -, -, -, -⟩ :=
    updateWordState_decomp onceCorrectState false 1000 false 7
  have hrt2 : M.repsTotal = 2 := by rw [hrt]; rfl
  have hrc2 : M.repsCorrect = 1 := by rw [hrc]; rfl
  rw [hEq, updateUncertainty_uncertainty]
  simp only [updateWordPriority_repsTotal, updateWordPriority_repsCorrect,
    scheduleNextReview_repsTotal, scheduleNextReview_repsCorrect, hrt2, hrc2]
  rw [if_pos (by norm_num : (2 : ℕ) > 0)]
  have habs : |((1 : ℕ) : ℝ) / ((2 : ℕ) : ℝ) - 0.5| = 0 := by
    rw [show ((1 : ℕ) : ℝ) / ((2 : ℕ) : ℝ) - 0.5 = 0 by push_cast; norm_num, abs_zero]
  rw [habs]
  have hexp : (0.8 : ℝ) ≤ Real.exp (-((2 : ℕ) : ℝ) * 0.1) := by
    have h1 := Real.add_one_le_exp (-((2 : ℕ) : ℝ) * 0.1)
    push_cast at h1 ⊢
    nlinarith
  have hsum : (1 : ℝ) < Real.exp (-((2 : ℕ) : ℝ) * 0.1) + (1 - 0 * 2) * 0.3 := by
    nlinarith
  exact lt_of_lt_of_le hsum (le_max_right _ _)

/-- When the state fed to the scheduler is NEW or LEARNING, the scheduled
interval is the learning step indexed by `min repsCorrect (steps - 1)` (in
minutes), and the max-interval cap never binds. -/
theorem scheduleNextReview_interval_learning (ws : WordState) (q : ℕ) (t : ℝ)
    (H : ws.state = WState.new ∨ ws.state = WState.learning) :
    (scheduleNextReview ws q t).interval =
      learningSteps.getD (min ws.repsCorrect (learningSteps.length - 1)) 0 * 60 * 1000 := by
  have hstep : learningSteps.getD (min ws.repsCorrect (learningSteps.length - 1)) 0 = 1 ∨
      learningSteps.getD (min ws.repsCorrect (learningSteps.length - 1)) 0 = 10 := by
    rcases Nat.eq_zero_or_pos ws.repsCorrect with h0 | h0
    · left; rw [h0]; rfl
    · right
      have hmin : min ws.repsCorrect (learningSteps.length - 1) = 1 := by
        simp only [learningSteps, List.length_cons, List.length_nil]
        omega
      rw [hmin]; rfl
  have hcap : ∀ x : ℝ, x = 1 ∨ x = 10 →
      min (x * 60 * 1000) (maxInterval * 24 * 60 * 60 * 1000) = x * 60 * 1000 := by
    rintro x (rfl | rfl) <;> rw [min_eq_left (by norm_num [maxInterval])]
  simp only [scheduleNextReview]
  rw [if_pos H]
  exact hcap _ hstep

/-- Claim C5 (amended): because the counters are updated before the FSRS
steps, an item that ends the update in state NEW or LEARNING is scheduled at
the learning step indexed by its post-increment `repsCorrect`. -/
theorem learning_interval_uses_incremented_reps (ws : WordState) (c : Bool)
    (rt : ℝ) (h : Bool) (t : ℝ)
    (H : (updateWordState ws c rt h t).state = WState.new ∨
         (updateWordState ws c rt h t).state = WState.learning) :
    (updateWordState ws c rt h t).interval =
      learningSteps.getD (min (updateWordState ws c rt h t).repsCorrect
        (learningSteps.length - 1)) 0 * 60 * 1000 := by
  obtain ⟨M, hEq, -, -, -, -, -, -⟩ := updateWordState_decomp ws c rt h t
  rw [hEq] at H ⊢
  simp only [updateUncertainty_state, updateWordPriority_state,
    scheduleNextReview_state] at H
  simp only [updateUncertainty_interval, updateWordPriority_interval,
    updateUncertainty_repsCorrect, updateWordPriority_repsCorrect,
    scheduleNextReview_repsCorrect]
  exact scheduleNextReview_interval_learning M _ t H

/-- The classification of the first, correct, unhinted review of a fresh
word: the response-time average is still 0, so the grade is GOOD. -/
theorem freshFirstCorrect_quality :
    determineResponseQuality true 1000 false (createNewWordState "g" 5) =
      ResponseQuality.GOOD := by
  have havg : (createNewWordState "g" 5).avgResponseTime = 0 := rfl
  unfold determineResponseQuality
  rw [if_neg (by simp)]
  dsimp only
  rw [havg]
  norm_num

/-- After its first correct review a fresh word is in state LEARNING. -/
theorem freshFirstCorrect_state :
    (updateWordState (createNewWordState "g" 5) true 1000 false 5).state =
      WState.learning := by
  simp only [updateWordState, applyFSRSUpdate, freshFirstCorrect_quality,
    updateUncertainty_state, updateWordPriority_state, scheduleNextReview_state]
  simp [handleNewWord, createNewWordState, ResponseQuality.FAIL, ResponseQuality.GOOD]

/-- After its first correct review a fresh word has `repsCorrect = 1`. -/
theorem freshFirstCorrect_repsCorrect :
    (updateWordState (createNewWordState "g" 5) true 1000 false 5).repsCorrect = 1 := by
  obtain ⟨M, hEq, -, hrc, -, -, -, -⟩ :=
    updateWordState_decomp (createNewWordState "g" 5) true 1000 false 5
  rw [hEq]
  simp only [updateUncertainty_repsCorrect, updateWordPriority_repsCorrect,
    scheduleNextReview_repsCorrect]
  rw [hrc]; rfl

/-- Claim C5 counterexample: the first correct review of a fresh word is
scheduled at 10 minutes (learning step index `min(1, 1)`), not at the step
indexed by the pre-update `repsCorrect = 0` (1 minute). -/
theorem first_correct_interval_not_first_step :
    (updateWordState (createNewWordState "g" 5) true 1000 false 5).interval ≠
      learningSteps.getD (min (createNewWordState "g" 5).repsCorrect
        (learningSteps.length - 1)) 0 * 60 * 1000 := by
  obtain ⟨M, hEq, -, hrc, -, -, -, -⟩ :=
    updateWordState_decomp (createNewWordState "g" 5) true 1000 false 5
  have hMstate : M.state = WState.learning := by
    have hs := freshFirstCorrect_state
    rw [hEq] at hs
    simpa only [updateUncertainty_state, updateWordPriority_state,
      scheduleNextReview_state] using hs
  have hMrc : M.repsCorrect = 1 := by rw [hrc]; rfl
  have hL : (updateWordState (createNewWordState "g" 5) true 1000 false 5).interval =
      600000 := by
    rw [hEq]
    simp only [updateUncertainty_interval, updateWordPriority_interval]
    rw [scheduleNextReview_interval_learning M _ _ (Or.inr hMstate), hMrc]
    norm_num [learningSteps]
  have hR : learningSteps.getD (min (createNewWordState "g" 5).repsCorrect
      (learningSteps.length - 1)) 0 * 60 * 1000 = (60000 : ℝ) := by
    rw [show (createNewWordState "g" 5).repsCorrect = 0 from rfl]
    norm_num [learningSteps]
  rw [hL, hR]
  norm_num

/-- Witness for the amended C5 at the first correct review of a fresh word. -/
theorem learning_interval_witness :
    ((updateWordState (createNewWordState "g" 5) true 1000 false 5).state = WState.new ∨
     (updateWordState (createNewWordState "g" 5) true 1000 false 5).state = WState.learning) ∧
    (updateWordState (createNewWordState "g" 5) true 1000 false 5).interval =
      learningSteps.getD (min (updateWordState (createNewWordState "g" 5) true 1000 false 5).repsCorrect
        (learningSteps.length - 1)) 0 * 60 * 1000 :=
  ⟨Or.inr freshFirstCorrect_state,
   learning_interval_uses_incremented_reps _ true 1000 false 5
     (Or.inr freshFirstCorrect_state)⟩

/-- Claim C9: a non-positive session length yields an empty selection. -/
theorem selectWordsForSession_nonpos_empty (store : String → Option WordState)
    (explore : ℕ → Bool) (rand : ℕ → ℝ) (vocabularyData : List VocabItem)
    (sessionLength : ℤ) (currentTime : ℝ) (hlen : sessionLength ≤ 0) :
    selectWordsForSession store explore rand vocabularyData sessionLength currentTime = [] := by
  simp only [selectWordsForSession]
  have hmin := min_le_left sessionLength
    (((sortByPriority (buildWordPriorities store currentTime vocabularyData)).length : ℤ))
  have h0 : (min sessionLength
      ((sortByPriority (buildWordPriorities store currentTime vocabularyData)).length : ℤ)).toNat = 0 := by
    omega
  rw [h0]
  rfl

/-- Witness for C9 at a negative session length over a nonempty vocabulary. -/
theorem selectWordsForSession_nonpos_empty_witness :
    ((-2 : ℤ) ≤ 0) ∧
    selectWordsForSession uniformStore (fun _ => true) (fun _ => 0) pairVocab (-2) 0 = [] :=
  ⟨by norm_num,
   selectWordsForSession_nonpos_empty uniformStore (fun _ => true) (fun _ => 0)
     pairVocab (-2) 0 (by norm_num)⟩

/-- Claim C10: when the log is empty, or its most recent entry records a
different word id, the after-update recording leaves the log unchanged. -/
theorem logStateUpdate_mismatch_noop (logs : List LogEntry) (ws : WordState)
    (q : ℕ) (H : ∀ lastLog, logs.getLast? = some lastLog → lastLog.wordId ≠ ws.wordId) :
    logStateUpdate logs ws q = logs := by
  unfold logStateUpdate
  cases hlast : logs.getLast? with
  | none => rfl
  | some lastLog =>
    exact if_neg (H lastLog hlast)

/-- Witness for C10: a one-entry log for "alpha" is untouched by the
after-record of an update to "beta". -/
theorem logStateUpdate_mismatch_noop_witness :
    (∀ lastLog, [alphaEntry].getLast? = some lastLog → lastLog.wordId ≠ betaWord.wordId) ∧
    logStateUpdate [alphaEntry] betaWord 2 = [alphaEntry] := by
  have H : ∀ lastLog, [alphaEntry].getLast? = some lastLog →
      lastLog.wordId ≠ betaWord.wordId := by
    intro lastLog hl
    have : alphaEntry = lastLog := by simpa using hl
    subst this
    show "alpha" ≠ "beta"
    decide
  exact ⟨H, logStateUpdate_mismatch_noop [alphaEntry] betaWord 2 H⟩

/-- The truthiness-guarded push adds at most one element. -/
theorem pushIfSome_length (selectedWord : Option PriorityEntry)
    (rest : List SelectedWord) :
    (pushIfSome selectedWord rest).length ≤ rest.length + 1 := by
  cases selectedWord <;> simp [pushIfSome]

/-- Each loop iteration pushes at most one element, so the result is bounded
by the fuel (the `targetCount`). -/
theorem selectLoop_length_le (explore : ℕ → Bool) (rand : ℕ → ℝ) :
    ∀ (fuel i : ℕ) (arr : List PriorityEntry),
      (selectLoop explore rand fuel i arr).length ≤ fuel := by
  intro fuel
  induction fuel with
  | zero => intro i arr; simp [selectLoop]
  | succ n ih =>
    intro i arr
    rw [selectLoop]
    dsimp only
    split_ifs with h1 h2
    · exact le_trans (pushIfSome_length _ _) (Nat.succ_le_succ (ih _ _))
    · exact le_trans (pushIfSome_length _ _) (Nat.succ_le_succ (ih _ _))
    · exact le_trans (pushIfSome_length _ _) (Nat.succ_le_succ (ih _ _))

/-- Claim C6 (amended): the selection returns at most
`min targetCount |vocabulary|` items (exactness fails under exploration). -/
theorem selectWordsForSession_length_le (store : String → Option WordState)
    (explore : ℕ → Bool) (rand : ℕ → ℝ) (vocabularyData : List VocabItem)
    (sessionLength : ℤ) (currentTime : ℝ) :
    (selectWordsForSession store explore rand vocabularyData sessionLength currentTime).length ≤
      min sessionLength.toNat vocabularyData.length := by
  simp only [selectWordsForSession]
  have hlen : (sortByPriority (buildWordPriorities store currentTime vocabularyData)).length =
      vocabularyData.length := by
    simp [sortByPriority, buildWordPriorities, List.length_insertionSort]
  rw [hlen]
  have h1 := selectLoop_length_le explore rand
    ((min sessionLength (vocabularyData.length : ℤ)).toNat) 0
    (sortByPriority (buildWordPriorities store currentTime vocabularyData))
  omega

/-- Tracing the loop on a two-element array with exploration at every draw and
unit uncertainties: the first draw splices out the head, the second splices
out the element after position 1, and the third iteration never happens
(fuel 2); the second iteration reads past the shrunk array, so only one
element is returned. -/
theorem selectLoop_pair_shortfall (a b : PriorityEntry)
    (ha : a.wordState.uncertainty = 1) (hb : b.wordState.uncertainty = 1) :
    (selectLoop (fun _ => true) (fun _ => 0) 2 0 [a, b]).length = 1 := by
  have step0 : selectLoop (fun _ => true) (fun _ => 0) 2 0 [a, b] =
      toSelected a :: selectLoop (fun _ => true) (fun _ => 0) 1 1 [b] := by
    rw [selectLoop]
    rw [if_pos ⟨rfl, by norm_num⟩]
    dsimp only
    rw [List.drop_zero]
    simp only [List.map_cons, List.map_nil, ha, hb, List.sum_cons, List.sum_nil]
    rw [if_pos (by norm_num : (1 : ℝ) + (1 + 0) > 0)]
    have hdraw : drawIndex [1, 1] ((fun _ : ℕ => (0 : ℝ)) 0 * (1 + (1 + 0))) = 0 := by
      unfold drawIndex drawIndexAux
      rw [if_pos (by norm_num)]
    rw [hdraw]
    rfl
  have step1 : selectLoop (fun _ => true) (fun _ => 0) 1 1 [b] = [] := by
    rw [selectLoop]
    rw [if_neg (by simp)]
    rfl
  rw [step0, step1]
  rfl

/-- Every entry built over the uniform store has unit uncertainty. -/
theorem sorted_pair_uncertainty :
    ∀ e ∈ sortByPriority (buildWordPriorities uniformStore 0 pairVocab),
      e.wordState.uncertainty = 1 := by
  intro e he
  have hmem : e ∈ buildWordPriorities uniformStore 0 pairVocab :=
    (List.perm_insertionSort _ _).mem_iff.mp he
  simp only [buildWordPriorities, List.mem_map] at hmem
  obtain ⟨v, -, rfl⟩ := hmem
  simp [getWordState, uniformStore, uniformState, createNewWordState,
    updateWordPriority_uncertainty]

/-- Claim C6 counterexample: over a two-item vocabulary with `targetCount = 2`
and exploration at every draw, the selection returns a single item, not
`min 2 2 = 2`. -/
theorem selectWordsForSession_shortfall :
    (selectWordsForSession uniformStore (fun _ => true) (fun _ => 0) pairVocab 2 0).length ≠
      min (2 : ℤ).toNat pairVocab.length := by
  have hlen : (sortByPriority (buildWordPriorities uniformStore 0 pairVocab)).length = 2 := by
    unfold sortByPriority
    rw [List.length_insertionSort]
    simp [buildWordPriorities, pairVocab]
  obtain ⟨a, b, hab⟩ := List.length_eq_two.mp hlen
  have ha : a.wordState.uncertainty = 1 :=
    sorted_pair_uncertainty a (by rw [hab]; simp)
  have hb : b.wordState.uncertainty = 1 :=
    sorted_pair_uncertainty b (by rw [hab]; simp)
  simp only [selectWordsForSession]
  rw [hab]
  rw [show (min (2 : ℤ) ((([a, b] : List PriorityEntry).length : ℕ) : ℤ)).toNat = 2 by simp]
  rw [selectLoop_pair_shortfall a b ha hb]
  decide

/-- One analytics fold step counts a word as mastered exactly when its state
is REVIEW and the mastery side condition holds. -/
theorem analyticsFold_masteredWords_step (acc : AnalyticsCounts) (s : WordState) :
    (analyticsFold acc s).masteredWords = acc.masteredWords +
      (if s.state = WState.review ∧ s.retrievability > 0.9 ∧ s.streakCorrect ≥ 3
       then 1 else 0) := by
  unfold analyticsFold
  cases hs : s.state
  · simp [hs]
  · simp [hs]
  · simp only [hs, true_and]
    split_ifs <;> simp

/-- Folding the analytics accumulator counts mastered words by the REVIEW-only
predicate. -/
theorem analyticsFold_masteredWords (states : List WordState) :
    ∀ acc : AnalyticsCounts,
      (states.foldl analyticsFold acc).masteredWords = acc.masteredWords +
        states.countP (fun s =>
          decide (s.state = WState.review) && decide (s.retrievability > 0.9) &&
          decide (s.streakCorrect ≥ 3)) := by
  induction states with
  | nil => intro acc; simp
  | cons s rest ih =>
    intro acc
    rw [List.foldl_cons, ih, List.countP_cons, analyticsFold_masteredWords_step]
    simp only [Bool.and_eq_true, decide_eq_true_eq, ge_iff_le, and_assoc]
    split_ifs with h1 <;> omega

/-- Claim C8 (amended): `getAnalytics` counts an item as mastered iff its
lifecycle state is REVIEW and `retrievability > 0.9` and `streakCorrect ≥ 3`;
items outside REVIEW are never counted. -/
theorem getAnalytics_mastered_iff_review (wordStatesList : List WordState) :
    (getAnalytics wordStatesList).masteredWords =
      wordStatesList.countP (fun s =>
        decide (s.state = WState.review) && decide (s.retrievability > 0.9) &&
        decide (s.streakCorrect ≥ 3)) := by
  unfold getAnalytics
  split_ifs with he
  · rw [List.isEmpty_iff.mp he]
    rfl
  · dsimp only
    rw [analyticsFold_masteredWords]
    simp

/-- Claim C8 counterexample: a LEARNING word with retrievability 1 and streak
3 satisfies the claimed mastery condition but is not counted. -/
theorem mastered_misses_learning_state :
    (getAnalytics [learningMaster]).masteredWords ≠
      [learningMaster].countP (fun s =>
        decide (s.retrievability > 0.9) && decide (s.streakCorrect ≥ 3)) := by
  have hL : (getAnalytics [learningMaster]).masteredWords = 0 := by
    unfold getAnalytics
    rw [if_neg (by simp)]
    dsimp only
    rw [List.foldl_cons, List.foldl_nil]
    unfold analyticsFold
    rw [show learningMaster.state = WState.learning from rfl]
  have hR : [learningMaster].countP (fun s =>
      decide (s.retrievability > 0.9) && decide (s.streakCorrect ≥ 3)) = 1 := by
    rw [List.countP_cons, List.countP_nil]
    have h1 : learningMaster.retrievability = 1 := rfl
    have h2 : learningMaster.streakCorrect = 3 := rfl
    simp only [h1, h2, Bool.and_eq_true, decide_eq_true_eq]
    rw [if_pos ⟨by norm_num, by norm_num⟩]
  rw [hL, hR]
  decide

end
